import Mathlib

/-!
Verification development for the meat-eating tracker script
(`meat_tracker.py`).  The script loads a per-user CSV of
(date, count) rows, upserts single-day entries, derives current/longest
meat-free streaks, meat-free ISO calendar weeks and achievement badges,
and offers a CSV export of the dense daily series.

Shallow embedding conventions:
* A calendar date is a `CalDate` (year, month, day); the dense daily
  series is indexed by `Nat` day numbers produced by `daysFromCivil`
  (Hinnant's civil-from-days algorithm, epoch 0000-03-01).
* A pandas value that may be `NaN` is an `Option Nat` (`none` = NaN,
  i.e. an unlogged/reindexed-missing day).
* The stored CSV is a `List (String × Nat)` (date cell as a string,
  count cell numeric); `pd.to_datetime` raising on an unparseable date
  is an `Except.error`.
* Streamlit session state (`st.session_state.archived_achievements`)
  is passed in as the `prior` list and returned in the result.
-/

/-- A calendar date, the payload of a normalized pandas `Timestamp`. -/
structure CalDate where
  y : Nat
  m : Nat
  d : Nat
deriving DecidableEq, Repr

/-- Day number of a civil date (days since 0000-03-01), valid for years ≥ 1.
Standard era-based civil-to-days computation, used to embed pandas
`date_range` / `Timestamp` ordering and arithmetic. -/
def daysFromCivil (dt : CalDate) : Nat :=
  let y := if dt.m ≤ 2 then dt.y - 1 else dt.y
  let era := y / 400
  let yoe := y % 400
  let mp := (dt.m + 9) % 12
  let doy := (153 * mp + 2) / 5 + dt.d - 1
  let doe := yoe * 365 + yoe / 4 - yoe / 100 + doy
  era * 146097 + doe

/-- Inverse direction (days back to civil date), used only to render
export date strings the way `strftime` does. -/
def civilFromDays (z : Nat) : CalDate :=
  let era := z / 146097
  let doe := z % 146097
  let yoe := (doe - doe / 1460 + doe / 36524 - doe / 146096) / 365
  let y := yoe + era * 400
  let doy := doe - (365 * yoe + yoe / 4 - yoe / 100)
  let mp := (5 * doy + 2) / 153
  let d := doy - (153 * mp + 2) / 5 + 1
  let m := if mp < 10 then mp + 3 else mp - 9
  ⟨if m ≤ 2 then y + 1 else y, m, d⟩

/-- The hard-coded tracking start date, `pd.to_datetime('2025-02-10')`
(line 106 of the script). -/
def startDate : CalDate := ⟨2025, 2, 10⟩

/-- Day number of `startDate`. -/
def startDay : Nat := daysFromCivil startDate

/-- A date plausible as a normalized pandas timestamp: bounded fields.
Hypothesis used by the CSV round-trip. -/
def ValidCalDate (dt : CalDate) : Prop :=
  dt.y < 10000 ∧ 1 ≤ dt.m ∧ dt.m ≤ 12 ∧ 1 ≤ dt.d ∧ dt.d ≤ 31

instance (dt : CalDate) : Decidable (ValidCalDate dt) := by
  unfold ValidCalDate; infer_instance

/-- The decimal digit character for `n % 10`. -/
def digitChar (n : Nat) : Char := Char.ofNat (48 + n % 10)

/-- Two-digit zero-padded decimal rendering (as `strftime` pads). -/
def pad2 (n : Nat) : List Char := [digitChar (n / 10), digitChar n]

/-- Four-digit zero-padded decimal rendering. -/
def pad4 (n : Nat) : List Char :=
  [digitChar (n / 1000), digitChar (n / 100), digitChar (n / 10), digitChar n]

/-- ISO `YYYY-MM-DD` rendering of a date: how `df.to_csv` serializes a
normalized datetime column. -/
def encodeISO (dt : CalDate) : String :=
  ⟨pad4 dt.y ++ '-' :: (pad2 dt.m ++ '-' :: pad2 dt.d)⟩

/-- Numeric value of a decimal digit character, `none` otherwise. -/
def digitVal? (c : Char) : Option Nat :=
  if '0' ≤ c ∧ c ≤ '9' then some (c.toNat - 48) else none

/-- ISO date parsing: how `pd.read_csv(parse_dates=['date'])` /
`pd.to_datetime` reads back the stored date cell (modeled for the
ISO shape the app itself writes; any other shape fails to parse). -/
def parseISO (s : String) : Option CalDate :=
  match s.data with
  | [a, b, c, e, h1, f, g, h2, i, j] =>
    if h1 = '-' ∧ h2 = '-' then
      match digitVal? a, digitVal? b, digitVal? c, digitVal? e,
            digitVal? f, digitVal? g, digitVal? i, digitVal? j with
      | some va, some vb, some vc, some ve, some vf, some vg, some vi, some vj =>
        some ⟨va * 1000 + vb * 100 + vc * 10 + ve, vf * 10 + vg, vi * 10 + vj⟩
      | _, _, _, _, _, _, _, _ => none
    else none
  | _ => none

/-- The in-memory log: one row per saved entry, `(date, count)`. -/
abbrev EventLog := List (CalDate × Nat)

/-- The stored CSV: one `(date-cell, count-cell)` row per log row. -/
abbrev CsvRows := List (String × Nat)

/-- `save_data` (lines 43–52): `df.to_csv` writes each row with the
date serialized in ISO form.  Drive upload is I/O, outside the model. -/
def save_data (log : EventLog) : CsvRows :=
  log.map (fun e => (encodeISO e.1, e.2))

/-- `load_data` (lines 25–41): read the stored rows back, parsing the
date column.  `pd.to_datetime(df['date'])` uses the default
`errors='raise'`, so one unparseable date cell aborts the whole load
with an exception (`Except.error`); there is no coerce-and-drop and no
warning path.  (The legacy missing-`count`-column upgrade of lines
36–37 concerns a whole-column schema case outside these claims.) -/
def load_data : CsvRows → Except String EventLog
  | [] => .ok []
  | r :: rest =>
    match parseISO r.1 with
    | none => .error ("could not parse date: " ++ r.1)
    | some dt =>
      match load_data rest with
      | .error e => .error e
      | .ok l => .ok ((dt, r.2) :: l)

/-- `groupby('date')['count'].sum()` at one day of the reindexed range:
`none` when no row has that date (the reindex fills `NaN`), otherwise
the sum of the counts of the rows for that date. -/
def sumCounts (rows : List (Nat × Nat)) (d : Nat) : Option Nat :=
  let hits := rows.filter (fun e => e.1 == d)
  if hits.isEmpty then none else some ((hits.map Prod.snd).sum)

/-- Lines 103–110: group the log by date, build the dense daily range
`[start, today]` (`pd.date_range`) and reindex, leaving `none` (NaN)
on unlogged days.  Result: the dense daily series, in date order. -/
def normalizeSeries (log : EventLog) (start today : Nat) : List (Nat × Option Nat) :=
  let rows := log.map (fun e => (daysFromCivil e.1, e.2))
  (List.range (today + 1 - start)).map (fun i => (start + i, sumCounts rows (start + i)))

/-- The streak loop (lines 122–130): one pass over `df_grouped.values`,
accumulating `(longest, current)`.  `val == 0` is false for NaN, so
only a day whose value is literally `0` extends a streak; both a
positive day and an unlogged (NaN) day reset `current` to 0. -/
def computeStreaks (vals : List (Option Nat)) : Nat × Nat :=
  vals.foldl
    (fun lc v => if v = some 0 then (max lc.1 (lc.2 + 1), lc.2 + 1) else (lc.1, 0))
    (0, 0)

/-- The streak policy the specification asserts: a day counts when it is
`Logged(0)` or `Unlogged`, and only a logged count > 0 resets.
Written from the spec's words, to compare against `computeStreaks`. -/
def computeStreaksClaim (vals : List (Option Nat)) : Nat × Nat :=
  vals.foldl
    (fun lc v =>
      if v = some 0 ∨ v = none then (max lc.1 (lc.2 + 1), lc.2 + 1) else (lc.1, 0))
    (0, 0)

/-- `df_grouped.fillna(999)` (line 154): an unlogged day becomes the
sentinel `999`, a logged day keeps its summed count. -/
def zeroFilled (v : Option Nat) : Nat := v.getD 999

/-- Day numbers 739597 (= 2025-02-10) and its successors satisfy
`Monday ≡ 5 (mod 7)` under the `daysFromCivil` epoch, so `(n + 2) / 7`
is constant exactly on ISO Monday–Sunday weeks.  This is the grouping
key the script gets from `index.isocalendar().year/week` (line 155):
on consecutive dates the ISO (year, week) pair induces this same
Monday-aligned partition. -/
def isoWeekKey (n : Nat) : Nat := (n + 2) / 7

/-- The distinct ISO-week keys present in the series, in order of first
appearance — the pandas groups of line 155. -/
def weekKeysOf (series : List (Nat × Option Nat)) : List Nat :=
  (series.map (fun e => isoWeekKey e.1)).dedup

/-- The rows of the series belonging to one ISO-week group. -/
def weekGroup (series : List (Nat × Option Nat)) (w : Nat) : List (Nat × Option Nat) :=
  series.filter (fun e => isoWeekKey e.1 == w)

/-- Lines 153–159: count the ISO-week groups with exactly 7 entries all
equal to 0 after the `fillna(999)` (so an unlogged day, filled with
999, disqualifies its week). -/
def meatFreeWeeks (series : List (Nat × Option Nat)) : Nat :=
  ((weekKeysOf series).filter (fun w =>
    (weekGroup series w).length == 7 &&
    (weekGroup series w).all (fun e => zeroFilled e.2 == 0))).length

/-- The week-qualification rule the specification asserts: 7 entries,
each `Logged(0)` or `Unlogged`.  Written from the spec's words, to
compare against `meatFreeWeeks`. -/
def meatFreeWeeksClaim (series : List (Nat × Option Nat)) : Nat :=
  ((weekKeysOf series).filter (fun w =>
    (weekGroup series w).length == 7 &&
    (weekGroup series w).all (fun e => e.2 == some 0 || e.2.isNone))).length

/-- The week-qualification rule as amended to match the code: 7 entries,
each explicitly `Logged(0)`.  Stated from the amended claim's words, to
compare against `meatFreeWeeks`. -/
def meatFreeWeeksAmended (series : List (Nat × Option Nat)) : Nat :=
  ((weekKeysOf series).filter (fun w =>
    (weekGroup series w).length == 7 &&
    (weekGroup series w).all (fun e => e.2 == some 0))).length

/-- `leadsList pat l` holds when `pat` is an initial segment of `l`. -/
def leadsList : List Char → List Char → Bool
  | [], _ => true
  | _ :: _, [] => false
  | a :: as, b :: bs => a == b && leadsList as bs

/-- `subListAt pat l` holds when `pat` occurs contiguously in `l`. -/
def subListAt (pat : List Char) : List Char → Bool
  | [] => leadsList pat []
  | x :: rest => leadsList pat (x :: rest) || subListAt pat rest

/-- Python's substring test `pat in hay` for strings. -/
def strContainsSub (hay pat : String) : Bool := subListAt pat.data hay.data

/-- The marker substring the script tests with
`"week meat-free streak" in ach` (lines 170, 175, 182). -/
def weekBadgeMarker : String := "week meat-free streak"

/-- Whether an achievement label is a week badge. -/
def isWeekBadge (a : String) : Bool := strContainsSub a weekBadgeMarker

/-- `f"{meat_free_weeks}-week meat-free streak"` (line 167). -/
def weekAchievementName (n : Nat) : String :=
  toString n ++ "-week meat-free streak"

/-- The fixed streak-threshold table of lines 139–147. -/
def streak_achievements : List (Nat × String) :=
  [(10, "10-day streak"), (20, "20-day streak"), (30, "30-day streak"),
   (40, "40-day streak"), (50, "50-day streak"), (60, "60-day streak"),
   (70, "70-day streak")]

/-- Lines 165–185: when at least one meat-free week was counted, drop
week badges from the active list, drop week badges with a different
count from the archived list (the two passes of lines 173–183, each of
which removes every such occurrence), and append the single current
week badge to the active list.  Returns (active, archived). -/
def weekStage (mfw : Nat) (active archived : List String) :
    List String × List String :=
  if mfw > 0 then
    let name := weekAchievementName mfw
    let active1 := active.filter (fun a => !isWeekBadge a)
    let archived1 := archived.filter (fun a => !(isWeekBadge a && a != name))
    let archived2 := archived1.filter (fun a => !isWeekBadge a || a == name)
    (active1 ++ [name], archived2)
  else (active, archived)

/-- Lines 187–190: append the label of every table threshold the longest
streak has reached to the active list (cumulative emission). -/
def emitStreakBadges (active : List String) (longest : Nat) : List String :=
  streak_achievements.foldl
    (fun acc p => if longest ≥ p.1 then acc ++ [p.2] else acc) active

/-- `df_grouped[df_grouped > 0].index.max()` (line 193): the most recent
series day whose value is a logged count > 0 (`NaN > 0` is false), or
`none` when there is no such day (pandas `NaT`, which compares unequal
to `today`). -/
def lastPositiveDay (series : List (Nat × Option Nat)) : Option Nat :=
  ((series.filter (fun e => match e.2 with | some c => 0 < c | none => false)).map
    Prod.fst).max?

/-- Lines 192–208: if the most recent positive day is `today`, merge the
active list into the session archived list through `list(set(...))`
(modeled as `dedup`, deduplicating by label), clear the active list and
raise the setback notice; otherwise remove every archived label that
was re-earned (each pass of the loop of lines 206–208 removes every
occurrence of an active label).  Returns (active, archived, notice). -/
def negativeStage (series : List (Nat × Option Nat)) (today : Nat)
    (active archived : List String) : List String × List String × Bool :=
  if lastPositiveDay series == some today then
    ([], (archived ++ active).dedup, true)
  else
    (active, archived.filter (fun a => !active.contains a), false)

/-- The derived view of one render pass. -/
structure RenderResult where
  currentStreak : Nat
  longestStreak : Nat
  meatFreeWeekCount : Nat
  active : List String
  sessionArchived : List String
  archived : List String
  negativeMessage : Bool
deriving DecidableEq, Repr

/-- Lines 115–214 in source order: streak loop, meat-free-week count,
week-badge stage over the freshly initialized empty active list and the
session archived list, streak-badge emission, negative/reactivation
stage, and the final displayed archived list
(`[ach for ach in session if ach not in active]`, lines 211–214). -/
def computeAll (series : List (Nat × Option Nat)) (today : Nat)
    (prior : List String) : RenderResult :=
  let lc := computeStreaks (series.map Prod.snd)
  let mfw := meatFreeWeeks series
  let wa := weekStage mfw [] prior
  let active2 := emitStreakBadges wa.1 lc.1
  let na := negativeStage series today active2 wa.2
  { currentStreak := lc.2
    longestStreak := lc.1
    meatFreeWeekCount := mfw
    active := na.1
    sessionArchived := na.2.1
    archived := na.2.1.filter (fun a => !na.1.contains a)
    negativeMessage := na.2.2 }

/-- The intermediate active list right before the negative stage: what
"every currently-active achievement" refers to on line 195. -/
def activeBeforeNegative (series : List (Nat × Option Nat))
    (prior : List String) : List String :=
  emitStreakBadges (weekStage (meatFreeWeeks series) [] prior).1
    (computeStreaks (series.map Prod.snd)).1

/-- The whole render gated by `if not df.empty:` (line 102): with an
empty log nothing below line 102 runs, so no view is produced at all
(`none`); otherwise the full derivation of lines 103–214 runs on the
dense series from the fixed `startDay` through `today`. -/
def renderView (log : EventLog) (today : CalDate) (prior : List String) :
    Option RenderResult :=
  if log.isEmpty then none
  else
    let t := daysFromCivil today
    some (computeAll (normalizeSeries log startDay t) t prior)

/-- The single-day Save handler (lines 65–80): drop every row with the
selected date, then append one new row — both the `count > 0` and the
`count == 0` branch append (the widget enforces `count ≥ 0`). -/
def saveEntry (log : EventLog) (dt : CalDate) (c : Nat) : EventLog :=
  log.filter (fun e => e.1 != dt) ++ [(dt, c)]

/-- Lines 336–345: the download block re-encodes each series date with
`strftime('%Y-%d-%m')` ("European format", year-day-month). -/
def exportDateString (n : Nat) : String :=
  let dt := civilFromDays n
  ⟨pad4 dt.y ++ '-' :: (pad2 dt.d ++ '-' :: pad2 dt.m)⟩

/-- The exported row set: the dense series with re-encoded dates and the
(possibly NaN) count column. -/
def exportRows (series : List (Nat × Option Nat)) : List (String × Option Nat) :=
  series.map (fun e => (exportDateString e.1, e.2))

/-- The bulk "Save Selected Days as 0" loop (lines 91–95): for each
selected date, drop any existing row and append a zero row. -/
def bulkSaveLoop (log : EventLog) (dates : List CalDate) : EventLog :=
  dates.foldl (fun acc dt => acc.filter (fun e => e.1 != dt) ++ [(dt, 0)]) log

/-- The statements of the Save branch (lines 65–99), in source order. -/
inductive Stmt where
  | upsert (dt : CalDate) (c : Nat)
  | persist
  | rerun
  | bulkBlock (clicked : Bool) (dates : List CalDate)

/-- Observable state of one script run. -/
structure ExecState where
  log : EventLog
  persisted : Bool
  bulkRan : Bool
deriving Repr

/-- Effect of one statement on the script state.  The bulk block runs
its save loop (and would persist and flag itself) only when its button
was clicked. -/
def execStmt (s : ExecState) : Stmt → ExecState
  | .upsert dt c => { s with log := saveEntry s.log dt c }
  | .persist => { s with persisted := true }
  | .rerun => s
  | .bulkBlock clicked dates =>
    if clicked then
      { s with log := bulkSaveLoop s.log dates, persisted := true, bulkRan := true }
    else s

/-- Run a statement list.  `st.rerun()` raises Streamlit's rerun
exception, which ends the current script run: every statement after it
in the list is abandoned. -/
def runStmts : ExecState → List Stmt → ExecState
  | s, [] => s
  | s, .rerun :: _ => s
  | s, stmt :: rest => runStmts (execStmt s stmt) rest

/-- The body of `if st.sidebar.button("Save"):` (lines 65–99) in source
order: upsert the selected day (66–76), persist and report (78–79),
`st.rerun()` (80), and then — still nested inside this branch — the
bulk-add UI and its save handler (82–99). -/
def saveBranchBody (dt : CalDate) (c : Nat) (bulkClicked : Bool)
    (bulkDates : List CalDate) : List Stmt :=
  [.upsert dt c, .persist, .rerun, .bulkBlock bulkClicked bulkDates]

/-- The state at the top of a script run, after `load_data`. -/
def initState (log : EventLog) : ExecState := ⟨log, false, false⟩

/-- One script run of the sidebar logic: the Save branch body executes
only when the Save button was clicked. -/
def runScript (log : EventLog) (saveClicked : Bool) (dt : CalDate) (c : Nat)
    (bulkClicked : Bool) (bulkDates : List CalDate) : ExecState :=
  if saveClicked then runStmts (initState log) (saveBranchBody dt c bulkClicked bulkDates)
  else initState log

/-- Scenario B of the spec: ten consecutive days all logged 0 starting
at the start date. -/
def scenarioBLog : EventLog := (List.range 10).map (fun i => (⟨2025, 2, 10 + i⟩, 0))

/-- Day number of 2025-02-19, the tenth day of scenario B. -/
def dayB : Nat := daysFromCivil ⟨2025, 2, 19⟩

/-- The dense series of scenario B. -/
def scenarioBSeries : List (Nat × Option Nat) := normalizeSeries scenarioBLog startDay dayB

/-- Scenario C of the spec: scenario B followed by a logged count of 2
on day 11 (2025-02-20). -/
def scenarioCLog : EventLog := scenarioBLog ++ [(⟨2025, 2, 20⟩, 2)]

/-- Day number of 2025-02-20, "today" in scenario C. -/
def dayC : Nat := daysFromCivil ⟨2025, 2, 20⟩

/-- The dense series of scenario C. -/
def scenarioCSeries : List (Nat × Option Nat) := normalizeSeries scenarioCLog startDay dayC

/-- A first calendar week (2025-02-10 Monday through 2025-02-16 Sunday)
logged 0 on every day except the unlogged Thursday 2025-02-13. -/
def gapWeekLog : EventLog :=
  ((List.range 7).filter (fun i => i != 3)).map (fun i => (⟨2025, 2, 10 + i⟩, 0))

/-- Day number of 2025-02-16, "today" for the gap-week scenario. -/
def gapWeekToday : Nat := daysFromCivil ⟨2025, 2, 16⟩

/-- The dense series of the gap-week scenario. -/
def gapWeekSeries : List (Nat × Option Nat) := normalizeSeries gapWeekLog startDay gapWeekToday

/-! ### Helper lemmas -/

theorem computeStreaks_concat (vals : List (Option Nat)) (v : Option Nat) :
    computeStreaks (vals ++ [v]) =
      if v = some 0
      then (max (computeStreaks vals).1 ((computeStreaks vals).2 + 1),
            (computeStreaks vals).2 + 1)
      else ((computeStreaks vals).1, 0) := by
  unfold computeStreaks
  rw [List.foldl_append]
  rfl

theorem computeStreaks_current_eq_suffix (vals : List (Option Nat)) :
    (computeStreaks vals).2 =
      (vals.reverse.takeWhile (fun x => x == some 0)).length := by
  induction vals using List.reverseRecOn with
  | nil => rfl
  | append_singleton l x ih =>
    rw [computeStreaks_concat, List.reverse_append]
    by_cases h : x = some 0
    · simp [h, List.takeWhile_cons, ih]
    · have hb : (x == some 0) = false := by
        simpa using h
      simp [h, List.takeWhile_cons, hb]

theorem foldl_emit_append (tbl : List (Nat × String)) (n : Nat) (a : List String) :
    tbl.foldl (fun acc p => if n ≥ p.1 then acc ++ [p.2] else acc) a
      = a ++ tbl.foldl (fun acc p => if n ≥ p.1 then acc ++ [p.2] else acc) [] := by
  induction tbl generalizing a with
  | nil => simp
  | cons p t ih =>
    simp only [List.foldl_cons]
    rw [ih, ih (if n ≥ p.1 then [] ++ [p.2] else [])]
    by_cases h : n ≥ p.1 <;> simp [h]

theorem mem_foldl_emit (tbl : List (Nat × String)) (n : Nat) (x : String) :
    x ∈ tbl.foldl (fun acc p => if n ≥ p.1 then acc ++ [p.2] else acc) [] ↔
      ∃ p ∈ tbl, n ≥ p.1 ∧ p.2 = x := by
  induction tbl with
  | nil => simp
  | cons p t ih =>
    simp only [List.foldl_cons]
    rw [foldl_emit_append]
    constructor
    · intro hx
      rcases List.mem_append.1 hx with h1 | h2
      · by_cases h : n ≥ p.1
        · rw [if_pos h] at h1
          simp only [List.nil_append, List.mem_singleton] at h1
          exact ⟨p, List.mem_cons_self _ _, h, h1.symm⟩
        · rw [if_neg h] at h1
          simp at h1
      · obtain ⟨q, hq, hle, heq⟩ := ih.1 h2
        exact ⟨q, List.mem_cons_of_mem _ hq, hle, heq⟩
    · rintro ⟨q, hq, hle, heq⟩
      rcases List.mem_cons.1 hq with rfl | hq2
      · apply List.mem_append.2 (Or.inl _)
        rw [if_pos hle]
        simp [heq]
      · exact List.mem_append.2 (Or.inr (ih.2 ⟨q, hq2, hle, heq⟩))

theorem emitStreakBadges_eq_append (a : List String) (n : Nat) :
    emitStreakBadges a n = a ++ emitStreakBadges [] n := by
  unfold emitStreakBadges
  exact foldl_emit_append _ _ _

theorem mem_emitStreakBadges (n : Nat) (x : String) :
    x ∈ emitStreakBadges [] n ↔ ∃ p ∈ streak_achievements, n ≥ p.1 ∧ p.2 = x := by
  unfold emitStreakBadges
  exact mem_foldl_emit _ _ _

theorem subListAt_append_of_right (pat ys : List Char) (h : subListAt pat ys = true)
    (xs : List Char) : subListAt pat (xs ++ ys) = true := by
  induction xs with
  | nil => simpa using h
  | cons x t ih =>
    show (leadsList pat (x :: (t ++ ys)) || subListAt pat (t ++ ys)) = true
    rw [ih]
    exact Bool.or_true _

theorem isWeekBadge_weekAchievementName (n : Nat) :
    isWeekBadge (weekAchievementName n) = true := by
  unfold isWeekBadge weekAchievementName strContainsSub
  rw [String.data_append]
  apply subListAt_append_of_right
  decide

theorem emitted_badge_not_week (n : Nat) (x : String)
    (h : x ∈ emitStreakBadges [] n) : isWeekBadge x = false := by
  obtain ⟨p, hp, -, rfl⟩ := (mem_emitStreakBadges n x).1 h
  revert hp
  have : ∀ p ∈ streak_achievements, isWeekBadge p.2 = false := by decide
  exact this p

theorem zeroFilled_beq_zero (v : Option Nat) :
    (zeroFilled v == 0) = (v == some 0) := by
  cases v <;> rfl

theorem weekStage_archived_subset (mfw : Nat) (active archived : List String) :
    ∀ a ∈ (weekStage mfw active archived).2, a ∈ archived := by
  intro a ha
  unfold weekStage at ha
  by_cases h : mfw > 0
  · rw [if_pos h] at ha
    dsimp only at ha
    exact List.mem_of_mem_filter (List.mem_of_mem_filter ha)
  · rw [if_neg h] at ha
    exact ha

theorem weekStage_archived_week_badge (mfw : Nat) (active archived : List String)
    (hm : 0 < mfw) : ∀ a ∈ (weekStage mfw active archived).2,
      isWeekBadge a = true → a = weekAchievementName mfw := by
  intro a ha hw
  unfold weekStage at ha
  rw [if_pos hm] at ha
  dsimp only at ha
  have h2 := List.of_mem_filter ha
  rw [hw] at h2
  simpa using h2

theorem weekStage_active_of_pos (mfw : Nat) (archived : List String) (hm : 0 < mfw) :
    (weekStage mfw [] archived).1 = [weekAchievementName mfw] := by
  unfold weekStage
  rw [if_pos hm]
  simp

theorem meatFreeWeeks_eq_amended (series : List (Nat × Option Nat)) :
    meatFreeWeeks series = meatFreeWeeksAmended series := by
  unfold meatFreeWeeks meatFreeWeeksAmended
  simp only [zeroFilled_beq_zero]

theorem digitVal_digitChar (n : Nat) : digitVal? (digitChar n) = some (n % 10) := by
  have h : n % 10 < 10 := Nat.mod_lt _ (by norm_num)
  unfold digitChar digitVal?
  generalize n % 10 = j at h ⊢
  interval_cases j <;> decide

theorem parseISO_encodeISO (dt : CalDate) (h : ValidCalDate dt) :
    parseISO (encodeISO dt) = some dt := by
  obtain ⟨hy, hm1, hm2, hd1, hd2⟩ := h
  show parseISO ⟨pad4 dt.y ++ '-' :: (pad2 dt.m ++ '-' :: pad2 dt.d)⟩ = some dt
  unfold pad4 pad2
  show (if '-' = '-' ∧ '-' = '-' then _ else none) = some dt
  rw [if_pos ⟨rfl, rfl⟩]
  simp only [digitVal_digitChar]
  show some (CalDate.mk _ _ _) = some dt
  have ey : dt.y / 1000 % 10 * 1000 + dt.y / 100 % 10 * 100 + dt.y / 10 % 10 * 10 +
      dt.y % 10 = dt.y := by omega
  have em : dt.m / 10 % 10 * 10 + dt.m % 10 = dt.m := by omega
  have ed : dt.d / 10 % 10 * 10 + dt.d % 10 = dt.d := by omega
  rw [ey, em, ed]

theorem load_save_roundtrip (L : EventLog) (h : ∀ e ∈ L, ValidCalDate e.1) :
    load_data (save_data L) = Except.ok L := by
  induction L with
  | nil => rfl
  | cons e t ih =>
    have he := h e (List.mem_cons_self _ _)
    have ht : ∀ x ∈ t, ValidCalDate x.1 := fun x hx => h x (List.mem_cons_of_mem _ hx)
    show load_data ((encodeISO e.1, e.2) :: save_data t) = Except.ok (e :: t)
    unfold load_data
    rw [parseISO_encodeISO e.1 he, ih ht]

theorem saveEntry_filter_ne (log : EventLog) (dt : CalDate) (c : Nat) :
    (saveEntry log dt c).filter (fun e => e.1 != dt) =
      log.filter (fun e => e.1 != dt) := by
  unfold saveEntry
  rw [List.filter_append, List.filter_filter]
  simp

theorem saveEntry_one_row (log : EventLog) (dt : CalDate) (c : Nat) :
    ((saveEntry log dt c).filter (fun e => e.1 == dt)).length = 1 := by
  unfold saveEntry
  rw [List.filter_append, List.filter_filter]
  have h0 : log.filter (fun a => (a.1 == dt) && (a.1 != dt)) = [] := by
    rw [List.filter_eq_nil_iff]
    intro e _
    cases h : e.1 == dt <;> simp [bne, h]
  rw [h0]
  simp

theorem computeAll_active_eq (series : List (Nat × Option Nat)) (today : Nat)
    (prior : List String) :
    (computeAll series today prior).active =
      (negativeStage series today (activeBeforeNegative series prior)
        (weekStage (meatFreeWeeks series) [] prior).2).1 := rfl

theorem computeAll_sessionArchived_eq (series : List (Nat × Option Nat)) (today : Nat)
    (prior : List String) :
    (computeAll series today prior).sessionArchived =
      (negativeStage series today (activeBeforeNegative series prior)
        (weekStage (meatFreeWeeks series) [] prior).2).2.1 := rfl

theorem computeAll_negativeMessage_eq (series : List (Nat × Option Nat)) (today : Nat)
    (prior : List String) :
    (computeAll series today prior).negativeMessage =
      (negativeStage series today (activeBeforeNegative series prior)
        (weekStage (meatFreeWeeks series) [] prior).2).2.2 := rfl

theorem negativeStage_pos (series : List (Nat × Option Nat)) (today : Nat)
    (active archived : List String) (h : lastPositiveDay series = some today) :
    negativeStage series today active archived =
      ([], (archived ++ active).dedup, true) := by
  have hb : (lastPositiveDay series == some today) = true := by simp [h]
  simp [negativeStage, hb]

theorem negativeStage_neg (series : List (Nat × Option Nat)) (today : Nat)
    (active archived : List String) (h : lastPositiveDay series ≠ some today) :
    negativeStage series today active archived =
      (active, archived.filter (fun a => !active.contains a), false) := by
  have hb : (lastPositiveDay series == some today) = false := by simp [h]
  simp [negativeStage, hb]

/-! ### Claim theorems -/

/-- C1 (counterexample): the claim's streak policy — a day counts toward
the streak when it is `Logged(0)` or `Unlogged`, and only a logged
count > 0 resets — is false of the code.  For the log
{2025-02-10 ↦ 0, 2025-02-12 ↦ 0} rendered on 2025-02-12, the dense
series is [Logged 0, Unlogged, Logged 0]: the script's loop yields
current streak 1 and longest streak 1 (the unlogged 2025-02-11 resets
the counter, because `NaN == 0` is false), while the claimed policy
would yield 3 and 3. -/
theorem streak_policy_counterexample :
    (renderView [(⟨2025, 2, 10⟩, 0), (⟨2025, 2, 12⟩, 0)] ⟨2025, 2, 12⟩ []).map
        RenderResult.currentStreak = some 1 ∧
    (renderView [(⟨2025, 2, 10⟩, 0), (⟨2025, 2, 12⟩, 0)] ⟨2025, 2, 12⟩ []).map
        RenderResult.longestStreak = some 1 ∧
    computeStreaksClaim ((normalizeSeries [(⟨2025, 2, 10⟩, 0), (⟨2025, 2, 12⟩, 0)]
        startDay (daysFromCivil ⟨2025, 2, 12⟩)).map Prod.snd) = (3, 3) ∧
    computeStreaks ((normalizeSeries [(⟨2025, 2, 10⟩, 0), (⟨2025, 2, 12⟩, 0)]
        startDay (daysFromCivil ⟨2025, 2, 12⟩)).map Prod.snd) ≠
      computeStreaksClaim ((normalizeSeries [(⟨2025, 2, 10⟩, 0), (⟨2025, 2, 12⟩, 0)]
        startDay (daysFromCivil ⟨2025, 2, 12⟩)).map Prod.snd) := by
  decide

/-- C1 (amended): in both the current- and the longest-streak
computation, a day counts toward the meat-free streak exactly when its
value is `Logged(0)`; a logged count > 0 AND an unlogged day both reset
the streak counter, so a logged-0 day and an unlogged day are NOT
interchangeable.  Appending one day increments both counters exactly
when the day's value is `some 0` and resets the current counter to 0
otherwise, and the current streak is always the length of the maximal
trailing run of `Logged(0)` days. -/
theorem streak_policy_logged_zero_only (vals : List (Option Nat)) (v : Option Nat) :
    computeStreaks (vals ++ [v]) =
      (if v = some 0
       then (max (computeStreaks vals).1 ((computeStreaks vals).2 + 1),
             (computeStreaks vals).2 + 1)
       else ((computeStreaks vals).1, 0)) ∧
    (computeStreaks vals).2 =
      (vals.reverse.takeWhile (fun x => x == some 0)).length :=
  ⟨computeStreaks_concat vals v, computeStreaks_current_eq_suffix vals⟩

/-- C3 (counterexample): with an empty event log the script does not
render the derived view at all — `renderView` yields `none` (line 102's
`if not df.empty:` guard skips everything), not a view with zero
streaks and empty achievement sets. -/
theorem empty_log_counterexample :
    renderView ([] : EventLog) ⟨2025, 2, 10⟩ [] = none := rfl

/-- C3 (amended): for an empty event log the whole derivation is
guarded out by `if not df.empty:`: no streaks, achievements or chart
are computed or rendered, for any `today` and any session state. -/
theorem empty_log_renders_nothing (today : CalDate) (prior : List String) :
    renderView [] today prior = none := rfl

/-- C6: saving an entry is an upsert and is idempotent: saving
`(date, count)` twice gives the same log as saving it once, and after
one save (hence also after two) the log has exactly one row for that
date, because prior rows for the date are removed before the new row
is appended. -/
theorem save_upsert_idempotent (log : EventLog) (dt : CalDate) (c : Nat) :
    saveEntry (saveEntry log dt c) dt c = saveEntry log dt c ∧
    ((saveEntry log dt c).filter (fun e => e.1 == dt)).length = 1 ∧
    ((saveEntry (saveEntry log dt c) dt c).filter (fun e => e.1 == dt)).length = 1 := by
  refine ⟨?_, saveEntry_one_row log dt c, saveEntry_one_row _ dt c⟩
  show (saveEntry log dt c).filter (fun e => e.1 != dt) ++ [(dt, c)] = _
  rw [saveEntry_filter_ne]
  rfl

/-- C8 (counterexample): a stored row whose date cell cannot be parsed
makes the load path raise (`pd.to_datetime` with its default
`errors='raise'`): the row is not dropped and no warning is reported —
the whole load aborts with an error. -/
theorem malformed_date_counterexample :
    load_data [("2025-02-10", 0), ("garbage", 3)] =
      Except.error "could not parse date: garbage" := rfl

/-- C8 (amended): for every stored CSV containing a row whose date
cannot be parsed, the load path raises: `load_data` returns an error
and no in-memory log is produced (no row is dropped, no warning is
reported). -/
theorem malformed_date_raises (rows : CsvRows) (r : String × Nat)
    (hr : r ∈ rows) (hp : parseISO r.1 = none) :
    ∃ msg, load_data rows = Except.error msg := by
  induction rows with
  | nil => cases hr
  | cons a t ih =>
    rcases List.mem_cons.1 hr with rfl | hr2
    · exact ⟨"could not parse date: " ++ r.1, by unfold load_data; rw [hp]⟩
    · obtain ⟨msg, hmsg⟩ := ih hr2
      cases hpa : parseISO a.1 with
      | none => exact ⟨"could not parse date: " ++ a.1, by unfold load_data; rw [hpa]⟩
      | some dta => exact ⟨msg, by unfold load_data; rw [hpa, hmsg]⟩

/-- C10: in every script run, the bulk "Save Selected Days as 0"
handler never executes and the bulk save loop never touches the log:
the block sits inside the single-day Save branch after the
unconditional `st.rerun()` call (line 80), which ends the script run,
so whether or not the Save or bulk buttons are clicked, `bulkRan` stays
false and the log reflects at most the single-day upsert. -/
theorem bulk_block_unreachable (log : EventLog) (saveClicked : Bool) (dt : CalDate)
    (c : Nat) (bulkClicked : Bool) (bulkDates : List CalDate) :
    (runScript log saveClicked dt c bulkClicked bulkDates).bulkRan = false ∧
    (runScript log saveClicked dt c bulkClicked bulkDates).log =
      (if saveClicked then saveEntry log dt c else log) := by
  cases saveClicked
  · exact ⟨rfl, rfl⟩
  · exact ⟨rfl, rfl⟩


/-- C2 (counterexample): the claim's week-qualification rule — 7 series
entries each `Logged(0)` or `Unlogged` — is false of the code.  For a
log covering the ISO week 2025-02-10 (Monday) through 2025-02-16
(Sunday) with every day logged 0 except the unlogged Thursday
2025-02-13, the claimed rule counts 1 qualifying week, but the script
(`fillna(999)` then `all(week == 0)`) counts 0 and activates no
week-count achievement. -/
theorem meat_free_week_counterexample :
    meatFreeWeeksClaim gapWeekSeries = 1 ∧
    meatFreeWeeks gapWeekSeries = 0 ∧
    (computeAll gapWeekSeries gapWeekToday []).active = [] := by
  decide

/-- C2 (amended): a week qualifies as meat-free exactly when it
contains 7 series entries each explicitly `Logged(0)` (an unlogged day
disqualifies its week, because the sentinel fill 999 is not 0); when
the number of qualifying weeks is positive and no meat was logged
today, exactly one week-count achievement labeled with that count is
active, and any week-count badge with a different count is absent from
the session archived set as well. -/
theorem week_badge_logged_zero_only (series : List (Nat × Option Nat)) (today : Nat)
    (prior : List String) :
    meatFreeWeeks series = meatFreeWeeksAmended series ∧
    (0 < meatFreeWeeks series → lastPositiveDay series ≠ some today →
      (computeAll series today prior).active.filter (fun a => isWeekBadge a) =
        [weekAchievementName (meatFreeWeeks series)] ∧
      ∀ a ∈ (computeAll series today prior).sessionArchived,
        isWeekBadge a = true → a = weekAchievementName (meatFreeWeeks series)) := by
  refine ⟨meatFreeWeeks_eq_amended series, fun hm hneg => ⟨?_, ?_⟩⟩
  · rw [computeAll_active_eq, negativeStage_neg _ _ _ _ hneg]
    show (activeBeforeNegative series prior).filter (fun a => isWeekBadge a) = _
    unfold activeBeforeNegative
    rw [weekStage_active_of_pos _ _ hm, emitStreakBadges_eq_append, List.filter_append]
    have h1 : [weekAchievementName (meatFreeWeeks series)].filter
        (fun a => isWeekBadge a) = [weekAchievementName (meatFreeWeeks series)] := by
      simp [isWeekBadge_weekAchievementName]
    have h2 : (emitStreakBadges []
        (computeStreaks (series.map Prod.snd)).1).filter (fun a => isWeekBadge a) = [] := by
      rw [List.filter_eq_nil_iff]
      intro x hx
      simp [emitted_badge_not_week _ x hx]
    rw [h1, h2, List.append_nil]
  · intro a ha hw
    rw [computeAll_sessionArchived_eq, negativeStage_neg _ _ _ _ hneg] at ha
    exact weekStage_archived_week_badge _ _ _ hm a (List.mem_of_mem_filter ha) hw

/-- C2 (witness): for the fully logged-0 first calendar week
2025-02-10 … 2025-02-16 with no meat logged today, exactly the
"1-week meat-free streak" badge is the active week badge. -/
theorem week_badge_logged_zero_only_witness :
    (computeAll (normalizeSeries ((List.range 7).map (fun i => (⟨2025, 2, 10 + i⟩, 0)))
        startDay gapWeekToday) gapWeekToday []).active.filter (fun a => isWeekBadge a) =
      [weekAchievementName (meatFreeWeeks (normalizeSeries
        ((List.range 7).map (fun i => (⟨2025, 2, 10 + i⟩, 0))) startDay gapWeekToday))] :=
  ((week_badge_logged_zero_only (normalizeSeries
      ((List.range 7).map (fun i => (⟨2025, 2, 10 + i⟩, 0))) startDay gapWeekToday)
    gapWeekToday []).2 (by decide) (by decide)).1

/-- C4: if the most recent day with a logged count > 0 is `today`, the
render clears the active set, raises the setback notice, and moves
every freshly computed active achievement into the session archived
set, which `list(set(...))` deduplicates; if no such day is today, no
archiving occurs: every label in the resulting session archived set was
already in the prior archived set. -/
theorem negative_reset_rule (series : List (Nat × Option Nat)) (today : Nat)
    (prior : List String) :
    (lastPositiveDay series = some today →
      (computeAll series today prior).active = [] ∧
      (computeAll series today prior).negativeMessage = true ∧
      (computeAll series today prior).sessionArchived.Nodup ∧
      ∀ a ∈ activeBeforeNegative series prior,
        a ∈ (computeAll series today prior).sessionArchived) ∧
    (lastPositiveDay series ≠ some today →
      (computeAll series today prior).negativeMessage = false ∧
      ∀ a ∈ (computeAll series today prior).sessionArchived, a ∈ prior) := by
  constructor
  · intro h
    rw [computeAll_active_eq, computeAll_negativeMessage_eq,
      computeAll_sessionArchived_eq, negativeStage_pos _ _ _ _ h]
    refine ⟨rfl, rfl, List.nodup_dedup _, fun a ha => ?_⟩
    show a ∈ List.dedup _
    rw [List.mem_dedup]
    exact List.mem_append_right _ ha
  · intro h
    rw [computeAll_negativeMessage_eq, computeAll_sessionArchived_eq,
      negativeStage_neg _ _ _ _ h]
    refine ⟨rfl, fun a ha => ?_⟩
    exact weekStage_archived_subset _ _ _ a (List.mem_of_mem_filter ha)

/-- C4 (witness): in scenario C (ten logged-0 days then count 2 logged
on today 2025-02-20) the active set is cleared, the notice is raised
and the archived set is deduplicated and absorbs the active badges; in
scenario B (no meat today) nothing is archived. -/
theorem negative_reset_rule_witness :
    ((computeAll scenarioCSeries dayC []).active = [] ∧
     (computeAll scenarioCSeries dayC []).negativeMessage = true ∧
     (computeAll scenarioCSeries dayC []).sessionArchived.Nodup ∧
     ∀ a ∈ activeBeforeNegative scenarioCSeries [],
       a ∈ (computeAll scenarioCSeries dayC []).sessionArchived) ∧
    ((computeAll scenarioBSeries dayB []).negativeMessage = false ∧
     ∀ a ∈ (computeAll scenarioBSeries dayB []).sessionArchived, a ∈ ([] : List String)) :=
  ⟨(negative_reset_rule scenarioCSeries dayC []).1 (by decide),
   (negative_reset_rule scenarioBSeries dayB []).2 (by decide)⟩

/-- C5: scenario B — ten consecutive days all logged 0 starting at the
start date, rendered on day 10 (2025-02-19) — yields longest streak 10,
current streak 10, and the 10-day threshold badge among the active
achievements; in general the emission loop activates the label of every
table threshold that the longest streak has reached (cumulative
emission), and only those. -/
theorem scenario_b_streaks_and_badges :
    ((renderView scenarioBLog ⟨2025, 2, 19⟩ []).map RenderResult.longestStreak
      = some 10) ∧
    ((renderView scenarioBLog ⟨2025, 2, 19⟩ []).map RenderResult.currentStreak
      = some 10) ∧
    ((renderView scenarioBLog ⟨2025, 2, 19⟩ []).map
      (fun r => r.active.contains "10-day streak") = some true) ∧
    ∀ (longest : Nat), ∀ p ∈ streak_achievements,
      (p.2 ∈ emitStreakBadges [] longest ↔ longest ≥ p.1) := by
  refine ⟨by decide, by decide, by decide, ?_⟩
  intro longest p hp
  constructor
  · intro hmem
    obtain ⟨q, hq, hle, heq⟩ := (mem_emitStreakBadges longest p.2).1 hmem
    have hinj : ∀ p ∈ streak_achievements, ∀ q ∈ streak_achievements,
        p.2 = q.2 → p.1 = q.1 := by decide
    rw [hinj q hq p hp heq] at hle
    exact hle
  · intro hge
    exact (mem_emitStreakBadges longest p.2).2 ⟨p, hp, hge, rfl⟩

/-- C5 (witness): with longest streak 15, the table pair (10,
"10-day streak") satisfies the emission rule, so the 10-day badge is
emitted. -/
theorem scenario_b_streaks_and_badges_witness :
    "10-day streak" ∈ emitStreakBadges [] 15 :=
  (scenario_b_streaks_and_badges.2.2.2 15 (10, "10-day streak") (by decide)).mpr
    (by decide)

/-- C7: round-trip — saving the log to CSV and loading it back
reproduces the log exactly (for valid dates), so exporting the
normalized series of the reloaded log yields exactly the
(date, count) pairs of the directly normalized series, with each date
re-encoded by the export's `strftime('%Y-%d-%m')` formatting. -/
theorem export_round_trip (L : EventLog) (h : ∀ e ∈ L, ValidCalDate e.1) (t : Nat) :
    ∃ L2, load_data (save_data L) = Except.ok L2 ∧
      exportRows (normalizeSeries L2 startDay t) =
        (normalizeSeries L startDay t).map (fun e => (exportDateString e.1, e.2)) :=
  ⟨L, load_save_roundtrip L h, rfl⟩

/-- C7 (witness): the round trip holds for the concrete two-row log
{2025-02-10 ↦ 0, 2025-02-11 ↦ 2} over a three-day window. -/
theorem export_round_trip_witness :
    ∃ L2, load_data (save_data [(⟨2025, 2, 10⟩, 0), (⟨2025, 2, 11⟩, 2)])
        = Except.ok L2 ∧
      exportRows (normalizeSeries L2 startDay (startDay + 2)) =
        (normalizeSeries [(⟨2025, 2, 10⟩, 0), (⟨2025, 2, 11⟩, 2)] startDay
          (startDay + 2)).map (fun e => (exportDateString e.1, e.2)) :=
  export_round_trip [(⟨2025, 2, 10⟩, 0), (⟨2025, 2, 11⟩, 2)] (by decide) (startDay + 2)

/-- C9: after every render, the displayed active and archived
achievement sets are disjoint: the archived list is the session
archived list filtered by `ach not in active_achievements`
(lines 211–214), so no label appears in both. -/
theorem active_archived_disjoint (series : List (Nat × Option Nat)) (today : Nat)
    (prior : List String) (a : String)
    (h : a ∈ (computeAll series today prior).active) :
    a ∉ (computeAll series today prior).archived := by
  intro hmem
  have harch : (computeAll series today prior).archived =
      (computeAll series today prior).sessionArchived.filter
        (fun x => !(computeAll series today prior).active.contains x) := rfl
  rw [harch, List.mem_filter] at hmem
  have h2 := hmem.2
  have h4 : (computeAll series today prior).active.contains a = true :=
    List.elem_iff.mpr h
  rw [h4] at h2
  simp at h2

/-- C9 (witness): in scenario B the 10-day badge is active, hence
absent from the displayed archived list. -/
theorem active_archived_disjoint_witness :
    "10-day streak" ∉ (computeAll scenarioBSeries dayB []).archived :=
  active_archived_disjoint scenarioBSeries dayB [] "10-day streak" (by decide)

/-- C8 (witness): the two-row store with the unparseable date cell
"garbage" makes `load_data` return an error. -/
theorem malformed_date_raises_witness :
    ∃ msg, load_data [("2025-02-10", 0), ("garbage", 3)] = Except.error msg :=
  malformed_date_raises [("2025-02-10", 0), ("garbage", 3)] ("garbage", 3)
    (by decide) rfl
